import Mathlib

/-!
Verification of the marimo islands worker bridge
(`src/frontend/src/core/islands/worker/worker.tsx`) and the grid layout
editor (`src/frontend/src/components/editor/renderers/grid-layout/grid-layout.tsx`).

The TypeScript sources are shallowly embedded: JavaScript strings become
`String`, JavaScript numbers become `ℚ` (exact rational arithmetic; no claim
here exercises rounding of binary floats), `Map`/`Set` objects become
association lists and lists of keys, asynchronous results become explicit
promise-state values, and the external collaborators (the pyodide controller,
the serialized bridge object, the react-grid-layout callbacks) are modelled as
explicit inputs, since their behaviour is out of scope for the reviewed code.
-/

namespace Worker

/-- Outbound worker-to-main messages, from the `WorkerSchema` messages block of
`worker.tsx` (`ready`, `kernelMessage`, `initialized`, `initializedError`). -/
inductive OutMsg
  | ready
  | kernelMessage (message : String)
  | initialized
  | initializedError (error : String)
  deriving DecidableEq

/-- Modelled from the spec: `prettyError` (from `utils/errors.ts`, a repository
file not included under `src/`) converts a thrown error into a human-readable
message string.  Errors are modelled as their message strings, on which the
conversion is the identity. -/
def prettyError (message : String) : String := message

/-- State of a JavaScript promise: still pending, fulfilled with a value, or
rejected with an error. -/
inductive PromiseState (α : Type)
  | pending
  | fulfilled (value : α)
  | rejected (error : String)
  deriving DecidableEq

/-- What happens to an `await` on a promise in a given state: it proceeds with
the value, rethrows the rejection error, or suspends forever while the promise
stays pending. -/
inductive AwaitResult (α : Type)
  | proceeds (value : α)
  | throws (error : String)
  | hangs
  deriving DecidableEq

/-- Behaviour of `await` as a function of the awaited promise's state. -/
def awaitPromise {α : Type} : PromiseState α → AwaitResult α
  | PromiseState.pending => AwaitResult.hangs
  | PromiseState.fulfilled v => AwaitResult.proceeds v
  | PromiseState.rejected e => AwaitResult.throws e

/-- Outcome of the external `controller.bootstrap` call awaited inside
`loadPyodideAndPackages` (the controller is an external collaborator, so its
outcome is an input of the model). -/
inductive BootstrapOutcome
  | ok
  | fails (error : String)
  deriving DecidableEq

/-- Result of running `loadPyodideAndPackages` in `worker.tsx` (lines 29-44):
the state of the promise `pyodideReadyPromise` returned by the async function,
the messages it sent, and whether `self.pyodide` was assigned.  The body wraps
the bootstrap in `try`/`catch`; the `catch` branch logs, sends
`initializedError` and falls off the end of the function, so the returned
promise is fulfilled on both paths. -/
structure BootResult where
  promise : PromiseState Unit
  sent : List OutMsg
  pyodideLoaded : Bool
  deriving DecidableEq

/-- Shallow embedding of `loadPyodideAndPackages` (`worker.tsx` lines 29-44) as
a function of the external bootstrap outcome. -/
def loadPyodideAndPackagesResult : BootstrapOutcome → BootResult
  | BootstrapOutcome.ok =>
    { promise := PromiseState.fulfilled (), sent := [], pyodideLoaded := true }
  | BootstrapOutcome.fails e =>
    { promise := PromiseState.fulfilled ()
      sent := [OutMsg.initializedError (prettyError e)]
      pyodideLoaded := false }

/-- JavaScript `String.prototype.includes`: substring containment. -/
def includes (s pat : String) : Bool := decide (pat.data <:+: s.data)

/-- The code rewrite performed by the `loadPackages` handler (`worker.tsx`
lines 88-100) before handing the code to `pyodide.loadPackagesFromImports`:
when the code mentions `mo.sql`, three import lines are pushed on the front
one after another, and if the resulting text mentions `polars`, a `pyarrow`
line is pushed on the front as well. -/
def loadPackagesTransform (code : String) : String :=
  if includes code "mo.sql" then
    let code1 := "import pandas\n" ++ code
    let code2 := "import duckdb\n" ++ code1
    let code3 := "import sqlglot\n" ++ code2
    if includes code3 "polars" then "import pyarrow\n" ++ code3 else code3
  else code

/-- Shallow embedding of the `loadPackages` request handler (`worker.tsx`
lines 85-106): it awaits `pyodideReadyPromise`, then passes the (possibly
rewritten) code to `pyodide.loadPackagesFromImports`.  The result records the
code string handed to the installer. -/
def loadPackagesRun (boot : PromiseState Unit) (code : String) : AwaitResult String :=
  match awaitPromise boot with
  | AwaitResult.hangs => AwaitResult.hangs
  | AwaitResult.throws e => AwaitResult.throws e
  | AwaitResult.proceeds _ => AwaitResult.proceeds (loadPackagesTransform code)

/-- Opaque stand-in for the notebook value returned by the external
`controller.mountFilesystem`. -/
structure Notebook where
  filename : String
  deriving DecidableEq

/-- Opaque stand-in for the bridge object returned by the external
`controller.startSession`. -/
structure SerializedBridge where
  tag : String
  deriving DecidableEq

/-- How the `startSession` request handler returns to the RPC transport:
normally, by throwing an error through the transport, or not at all. -/
inductive SessionOutcome
  | returned
  | threw (error : String)
  | hanged
  deriving DecidableEq

/-- Observable actions of the `startSession` handler, in order: resolving the
`bridgeReady` deferred and sending outbound messages. -/
inductive Action
  | resolvedBridge
  | sentMsg (m : OutMsg)
  deriving DecidableEq

/-- Shallow embedding of the `startSession` request handler (`worker.tsx`
lines 59-80).  `boot` is the state of `pyodideReadyPromise`;
`controllerLoaded` models whether `self.controller` is set (checked by
`invariant`, which throws `Error("Controller not loaded")`); `mountFn` and
`startFn` are the external controller operations, each either returning a
value or throwing.  The whole post-bootstrap body is wrapped in `try`/`catch`
whose `catch` sends `initializedError` with the prettified error, and the
handler then returns normally; on success the bridge deferred is resolved and
then `initialized` is sent. -/
def startSessionRun (boot : PromiseState Unit) (controllerLoaded : Bool)
    (mountFn : String → String → Except String Notebook)
    (startFn : Notebook → Except String SerializedBridge)
    (code appId : String) : SessionOutcome × List Action :=
  match awaitPromise boot with
  | AwaitResult.hangs => (SessionOutcome.hanged, [])
  | AwaitResult.throws e => (SessionOutcome.threw e, [])
  | AwaitResult.proceeds _ =>
    if controllerLoaded then
      match mountFn code ("app-" ++ appId ++ ".py") with
      | Except.error e =>
        (SessionOutcome.returned,
         [Action.sentMsg (OutMsg.initializedError (prettyError e))])
      | Except.ok nb =>
        match startFn nb with
        | Except.error e =>
          (SessionOutcome.returned,
           [Action.sentMsg (OutMsg.initializedError (prettyError e))])
        | Except.ok _ =>
          (SessionOutcome.returned,
           [Action.resolvedBridge, Action.sentMsg OutMsg.initialized])
    else
      (SessionOutcome.returned,
       [Action.sentMsg (OutMsg.initializedError (prettyError "Controller not loaded"))])

end Worker

namespace GridEditor

/-- The two docking sides a grid cell can be pinned to (`GridLayoutCellSide`
from the grid layout types; the spec's data model limits the mapping to
`left` and `right`). -/
inductive GridLayoutCellSide
  | left
  | right
  deriving DecidableEq

/-- One placed cell of the layout document: the react-grid-layout item `{i, x,
y, w, h}` referenced by `layout.cells`. -/
structure GridCellLayout where
  i : String
  x : ℚ
  y : ℚ
  w : ℚ
  h : ℚ
  deriving DecidableEq

/-- The layout document of the grid editor, per the spec's data model and the
uses in `grid-layout.tsx`: columns, row height, optional max width, bordered
flag, the placed-cell list, the scrollable-cell id set and the id-to-side
map. -/
structure GridLayout where
  columns : ℚ
  rowHeight : ℚ
  maxWidth : Option ℚ
  bordered : Bool
  cells : List GridCellLayout
  scrollableCells : List String
  cellSide : List (String × GridLayoutCellSide)
  deriving DecidableEq

/-- JavaScript `Map.prototype.get` on the association-list model of a `Map`. -/
def mapGet (m : List (String × GridLayoutCellSide)) (k : String) :
    Option GridLayoutCellSide :=
  match m with
  | [] => none
  | (k1, v) :: rest => if k1 = k then some v else mapGet rest k

/-- JavaScript `Map.prototype.set`: updates the entry in place when the key is
present, otherwise appends it (insertion order is preserved). -/
def mapSet (m : List (String × GridLayoutCellSide)) (k : String)
    (v : GridLayoutCellSide) : List (String × GridLayoutCellSide) :=
  match m with
  | [] => [(k, v)]
  | (k1, v1) :: rest =>
    if k1 = k then (k, v) :: rest else (k1, v1) :: mapSet rest k v

/-- JavaScript `Map.prototype.delete`: removes the entry with the key. -/
def mapDelete (m : List (String × GridLayoutCellSide)) (k : String) :
    List (String × GridLayoutCellSide) :=
  m.filter (fun kv => kv.1 != k)

/-- Shallow embedding of `handleSetSide` (`grid-layout.tsx` lines 112-123):
if the chosen side equals the currently stored side for the cell the entry is
deleted, otherwise it is stored; the document is replaced wholesale. -/
def handleSetSide (layout : GridLayout) (cellId : String)
    (side : GridLayoutCellSide) : GridLayout :=
  if mapGet layout.cellSide cellId = some side then
    { layout with cellSide := mapDelete layout.cellSide cellId }
  else
    { layout with cellSide := mapSet layout.cellSide cellId side }

/-- Shallow embedding of the `onLayoutChange` callback (`grid-layout.tsx`
lines 161-166): the document's cell list is replaced by the list supplied by
the grid library. -/
def onLayoutChange (layout : GridLayout) (cellLayouts : List GridCellLayout) :
    GridLayout :=
  { layout with cells := cellLayouts }

/-- Shallow embedding of the `onDrop` callback (`grid-layout.tsx` lines
176-185): when the library supplies a dropped item, it is appended to the
library-supplied cell list; when `dropped` is absent the handler returns
without touching the document. -/
def onDrop (layout : GridLayout) (cellLayouts : List GridCellLayout)
    (dropped : Option GridCellLayout) : GridLayout :=
  match dropped with
  | none => layout
  | some d => { layout with cells := cellLayouts ++ [d] }

/-- Shallow embedding of the `onDelete` handler (`grid-layout.tsx` lines
235-240): the cell's entry is filtered out of the placed-cell list. -/
def onDelete (layout : GridLayout) (cellId : String) : GridLayout :=
  { layout with cells := layout.cells.filter (fun c => c.i != cellId) }

/-- A notebook cell as far as the renderer's filtering is concerned: its id
(`cells` prop of `GridLayoutRenderer`). -/
structure NotebookCell where
  id : String
  deriving DecidableEq

/-- The id set `inGridIds = new Set(layout.cells.map((cell) => cell.i))`
(`grid-layout.tsx` line 62), modelled as the list of ids. -/
def inGridIds (layout : GridLayout) : List String :=
  layout.cells.map (fun c => c.i)

/-- The derived tray content `notInGrid = cells.filter((cell) =>
!inGridIds.has(cell.id))` (`grid-layout.tsx` line 268). -/
def notInGrid (layout : GridLayout) (cells : List NotebookCell) :
    List NotebookCell :=
  cells.filter (fun c => !((inGridIds layout).contains c.id))

/-- The invariant claimed for the layout document: every entry of `cells` has
a unique id. -/
def uniqueCellIds (layout : GridLayout) : Prop :=
  (layout.cells.map (fun c => c.i)).Nodup

instance (layout : GridLayout) : Decidable (uniqueCellIds layout) := by
  unfold uniqueCellIds
  infer_instance

/-- The dropping-item record put into state by the tray cell's `onDragStart`
handler. -/
structure DroppingItem where
  i : String
  w : ℚ
  h : ℚ
  deriving DecidableEq

/-- JavaScript `x || d` for numbers: the default replaces a falsy (zero)
value. -/
def jsFalsyOr (x d : ℚ) : ℚ := if x = 0 then d else x

/-- Shallow embedding of the tray cell's `onDragStart` (`grid-layout.tsx`
lines 310-320): the dropping item gets width `layout.columns / 4` and height
`Math.ceil(height / layout.rowHeight) || 1`, where `height` is the rendered
pixel height of the tray element. -/
def onTrayDragStart (layout : GridLayout) (cellId : String)
    (offsetHeight : ℚ) : DroppingItem :=
  { i := cellId
    w := layout.columns / 4
    h := jsFalsyOr ((⌈offsetHeight / layout.rowHeight⌉ : ℤ) : ℚ) 1 }

/-- The `droppingItem` prop handed to the grid library (`grid-layout.tsx`
lines 167-175): the stored width and height with `|| 2` fallbacks. -/
def droppingItemProp (d : DroppingItem) : DroppingItem :=
  { i := d.i, w := jsFalsyOr d.w 2, h := jsFalsyOr d.h 2 }

end GridEditor

namespace Worker

/-- A JavaScript value as exchanged with the bridge: the JSON-representable
values (numbers restricted to integers, which covers every payload the claims
exercise). -/
inductive JsValue
  | null
  | bool (b : Bool)
  | num (n : Int)
  | str (s : String)
  | arr (elems : List JsValue)
  | obj (members : List (String × JsValue))

/-- Escape of one character inside a JSON string literal. -/
def jsonEscapeChar (c : Char) : String :=
  if c = '"' then "\\\""
  else if c = '\\' then "\\\\"
  else if c = '\n' then "\\n"
  else if c = '\t' then "\\t"
  else if c = '\r' then "\\r"
  else String.singleton c

/-- A JSON string literal: the escaped characters between double quotes. -/
def jsonQuote (s : String) : String :=
  "\"" ++ String.join (s.data.map jsonEscapeChar) ++ "\""

mutual

/-- Modelled from the spec: the builtin `JSON.stringify` (an external browser
primitive, not repository code) serializing a value to JSON text, restricted
to the integer-numbered values of `JsValue`. -/
def jsonStringify : JsValue → String
  | JsValue.null => "null"
  | JsValue.bool true => "true"
  | JsValue.bool false => "false"
  | JsValue.num n => toString n
  | JsValue.str s => jsonQuote s
  | JsValue.arr xs => "[" ++ stringifyElems xs ++ "]"
  | JsValue.obj ms => "\x7b" ++ stringifyMembers ms ++ "\x7d"

/-- Comma-separated serialization of array elements. -/
def stringifyElems : List JsValue → String
  | [] => ""
  | [x] => jsonStringify x
  | x :: y :: xs => jsonStringify x ++ "," ++ stringifyElems (y :: xs)

/-- Comma-separated serialization of object members. -/
def stringifyMembers : List (String × JsValue) → String
  | [] => ""
  | [(k, v)] => jsonQuote k ++ ":" ++ jsonStringify v
  | (k, v) :: kv :: rest =>
    jsonQuote k ++ ":" ++ jsonStringify v ++ "," ++ stringifyMembers (kv :: rest)

end

/-- JSON whitespace skipping. -/
def skipWs : List Char → List Char
  | [] => []
  | c :: cs =>
    if c = ' ' || c = '\t' || c = '\n' || c = '\r' then skipWs cs else c :: cs

/-- Body of a JSON string literal after the opening quote: returns the decoded
characters and the remainder after the closing quote, or `none` on a malformed
literal. -/
def parseStringBody (acc : List Char) : List Char → Option (List Char × List Char)
  | [] => none
  | c :: cs =>
    if c = '"' then some (acc.reverse, cs)
    else if c = '\\' then
      match cs with
      | [] => none
      | e :: cs1 =>
        if e = '"' then parseStringBody ('"' :: acc) cs1
        else if e = '\\' then parseStringBody ('\\' :: acc) cs1
        else if e = '/' then parseStringBody ('/' :: acc) cs1
        else if e = 'n' then parseStringBody ('\n' :: acc) cs1
        else if e = 't' then parseStringBody ('\t' :: acc) cs1
        else if e = 'r' then parseStringBody ('\r' :: acc) cs1
        else if e = 'b' then parseStringBody ('\x08' :: acc) cs1
        else if e = 'f' then parseStringBody ('\x0c' :: acc) cs1
        else none
    else if c.toNat < 32 then none
    else parseStringBody (c :: acc) cs

/-- Accumulates a run of decimal digits. -/
def digitsVal (acc : Nat) : List Char → Nat × List Char
  | [] => (acc, [])
  | c :: cs =>
    if c.isDigit then digitsVal (acc * 10 + (c.toNat - 48)) cs else (acc, c :: cs)

/-- A JSON integer literal: an optional minus sign followed by digits. -/
def parseNumber : List Char → Option (JsValue × List Char)
  | '-' :: c :: cs =>
    if c.isDigit then
      match digitsVal 0 (c :: cs) with
      | (n, rest) => some (JsValue.num (-(n : Int)), rest)
    else none
  | c :: cs =>
    if c.isDigit then
      match digitsVal 0 (c :: cs) with
      | (n, rest) => some (JsValue.num (n : Int), rest)
    else none
  | [] => none

mutual

/-- Modelled from the spec: the builtin `JSON.parse` (an external browser
primitive, not repository code), as a fuelled recursive-descent parser over
the JSON grammar with integer numbers; `none` models the `SyntaxError` the
builtin throws on text that is not valid JSON. -/
def parseValue : Nat → List Char → Option (JsValue × List Char)
  | 0, _ => none
  | f + 1, cs =>
    match skipWs cs with
    | 'n' :: 'u' :: 'l' :: 'l' :: rest => some (JsValue.null, rest)
    | 't' :: 'r' :: 'u' :: 'e' :: rest => some (JsValue.bool true, rest)
    | 'f' :: 'a' :: 'l' :: 's' :: 'e' :: rest => some (JsValue.bool false, rest)
    | '"' :: rest =>
      match parseStringBody [] rest with
      | some (s, r) => some (JsValue.str (String.mk s), r)
      | none => none
    | '[' :: rest => parseElems f (skipWs rest)
    | '\x7b' :: rest => parseMembers f (skipWs rest)
    | other => parseNumber other

/-- Array tail after `[`, positioned at the first element or `]`. -/
def parseElems : Nat → List Char → Option (JsValue × List Char)
  | 0, _ => none
  | f + 1, cs =>
    match cs with
    | ']' :: rest => some (JsValue.arr [], rest)
    | _ =>
      match parseValue f cs with
      | none => none
      | some (v, rest) => parseElemsRest f [v] rest

/-- Array continuation: a comma and another element, or the closing `]`. -/
def parseElemsRest : Nat → List JsValue → List Char → Option (JsValue × List Char)
  | 0, _, _ => none
  | f + 1, acc, cs =>
    match skipWs cs with
    | ']' :: rest => some (JsValue.arr acc.reverse, rest)
    | ',' :: rest =>
      match parseValue f rest with
      | none => none
      | some (v, r) => parseElemsRest f (v :: acc) r
    | _ => none

/-- One `"key": value` member of an object. -/
def parseMember : Nat → List Char → Option ((String × JsValue) × List Char)
  | 0, _ => none
  | f + 1, cs =>
    match skipWs cs with
    | '"' :: rest =>
      match parseStringBody [] rest with
      | none => none
      | some (k, r1) =>
        match skipWs r1 with
        | ':' :: r2 =>
          match parseValue f r2 with
          | none => none
          | some (v, r) => some ((String.mk k, v), r)
        | _ => none
    | _ => none

/-- Object tail after the opening brace, positioned at the first member or the
closing brace. -/
def parseMembers : Nat → List Char → Option (JsValue × List Char)
  | 0, _ => none
  | f + 1, cs =>
    match cs with
    | '\x7d' :: rest => some (JsValue.obj [], rest)
    | _ =>
      match parseMember f cs with
      | none => none
      | some (kv, rest) => parseMembersRest f [kv] rest

/-- Object continuation: a comma and another member, or the closing brace. -/
def parseMembersRest : Nat → List (String × JsValue) → List Char →
    Option (JsValue × List Char)
  | 0, _, _ => none
  | f + 1, acc, cs =>
    match skipWs cs with
    | '\x7d' :: rest => some (JsValue.obj acc.reverse, rest)
    | ',' :: rest =>
      match parseMember f rest with
      | none => none
      | some (kv, r) => parseMembersRest f (kv :: acc) r
    | _ => none

end

/-- Modelled from the spec: `JSON.parse` applied to a whole string, yielding
the parsed value, or `none` for the `SyntaxError` thrown on invalid JSON. -/
def jsonParse (s : String) : Option JsValue :=
  match parseValue (2 * s.length + 2) s.data with
  | some (v, rest) => if skipWs rest = [] then some v else none
  | none => none

/-- The payload serialization step of the `bridge` handler (`worker.tsx` lines
123-128): an absent (`null`/`undefined`) payload stays absent, a string
payload is passed through, any other payload is `JSON.stringify`-ed. -/
def serializePayload : Option JsValue → Option String
  | none => none
  | some (JsValue.str s) => some s
  | some v => some (jsonStringify v)

/-- Error value modelling the `SyntaxError` that `JSON.parse` throws inside
the `bridge` handler when the response string is not valid JSON. -/
def jsonParseError : String := "SyntaxError: Unexpected token in JSON"

/-- The response step of the `bridge` handler (`worker.tsx` line 139):
`typeof response === "string" ? JSON.parse(response) : response`, with
`Except.error` modelling the exception that propagates through the RPC
transport when `JSON.parse` throws. -/
def handleResponse : JsValue → Except String JsValue
  | JsValue.str s =>
    match jsonParse s with
    | some v => Except.ok v
    | none => Except.error jsonParseError
  | v => Except.ok v

/-- The body of the `bridge` handler after its awaits (`worker.tsx` lines
123-139): the named bridge function, an external collaborator, is modelled by
its two entry points `callNoArg` (invocation with no argument) and
`callWithArg` (invocation with the serialized payload string); the handler
picks one according to the serialized payload and post-processes the
response. -/
def bridgeCall (payload : Option JsValue) (callNoArg : JsValue)
    (callWithArg : String → JsValue) : Except String JsValue :=
  match serializePayload payload with
  | none => handleResponse callNoArg
  | some s => handleResponse (callWithArg s)

end Worker

/-! Helper lemmas about substring containment, used to track the `polars`
check of `loadPackagesTransform` across the prepended import lines. -/

/-- A prefix of `a ++ c :: b` that avoids the character `c` is already a
prefix of `a`. -/
theorem prefix_of_prefix_append_cons {p a b : List Char} {c : Char}
    (hc : c ∉ p) (h : p <+: a ++ c :: b) : p <+: a := by
  by_cases hlen : p.length ≤ a.length
  · have hp := List.prefix_iff_eq_take.mp h
    rw [List.take_append_of_le_length hlen] at hp
    rw [hp]
    exact List.take_prefix _ _
  · exfalso
    push_neg at hlen
    have hp := List.prefix_iff_eq_take.mp h
    rw [List.take_append_eq_append_take] at hp
    have h1 : a.take p.length = a := List.take_of_length_le hlen.le
    have h2 : p.length - a.length = (p.length - a.length - 1) + 1 := by omega
    rw [h1, h2, List.take_succ_cons] at hp
    apply hc
    rw [hp]
    exact List.mem_append_right _ (List.mem_cons_self _ _)

/-- A pattern avoiding the character `c` occurs in `a ++ c :: b` only if it
occurs in `a` or in `b`: no occurrence can straddle the separator. -/
theorem not_infix_append_cons {p a b : List Char} {c : Char}
    (hc : c ∉ p) (ha : ¬ p <:+: a) (hb : ¬ p <:+: b) : ¬ p <:+: a ++ c :: b := by
  induction a with
  | nil =>
    intro h
    rw [List.nil_append] at h
    rcases List.infix_cons_iff.mp h with hpre | hinf
    · rcases p with _ | ⟨x, p1⟩
      · exact ha List.nil_infix
      · have hx : x = c := (List.cons_prefix_cons.mp hpre).1
        exact hc (hx ▸ List.mem_cons_self x p1)
    · exact hb hinf
  | cons x a1 ih =>
    intro h
    rw [List.cons_append] at h
    rcases List.infix_cons_iff.mp h with hpre | hinf
    · rw [← List.cons_append] at hpre
      exact ha (prefix_of_prefix_append_cons hc hpre).isInfix
    · exact ih (fun hx => ha (hx.trans (List.suffix_cons x a1).isInfix)) hinf

/-- Containment in the suffix gives containment in the appended string. -/
theorem includes_append_left (a code pat : String)
    (h : Worker.includes code pat = true) :
    Worker.includes (a ++ code) pat = true := by
  have hi : pat.data <:+: code.data := of_decide_eq_true h
  apply decide_eq_true
  rw [String.data_append]
  exact hi.trans (List.suffix_append a.data code.data).isInfix

/-- The `polars` check of `loadPackagesTransform` is unaffected by the three
prepended import lines: they contain no occurrence of `polars` and end in a
newline, which `polars` does not contain, so no occurrence can straddle the
boundary with the original code. -/
theorem polars_check_after_imports (code : String)
    (h : Worker.includes code "polars" = false) :
    Worker.includes ("import sqlglot\nimport duckdb\nimport pandas\n" ++ code)
      "polars" = false := by
  have hb : ¬ ("polars".data <:+: code.data) := of_decide_eq_false h
  apply decide_eq_false
  have h1 : "import sqlglot\nimport duckdb\nimport pandas\n".data
      = "import sqlglot\nimport duckdb\nimport pandas".data ++ ['\n'] := by decide
  rw [String.data_append, h1, List.append_assoc]
  exact not_infix_append_cons (by decide) (by decide) hb

/-! Helper lemmas about the association-list model of the JavaScript `Map`
used for the cell-side store. -/

/-- Looking up a key right after `Map.set` yields the stored value. -/
theorem mapGet_mapSet_self (m : List (String × GridEditor.GridLayoutCellSide))
    (k : String) (v : GridEditor.GridLayoutCellSide) :
    GridEditor.mapGet (GridEditor.mapSet m k v) k = some v := by
  induction m with
  | nil => simp [GridEditor.mapSet, GridEditor.mapGet]
  | cons kv rest ih =>
    rcases kv with ⟨k1, v1⟩
    by_cases hk : k1 = k
    · simp [GridEditor.mapSet, hk, GridEditor.mapGet]
    · simp [GridEditor.mapSet, hk, GridEditor.mapGet, ih]

/-- Looking up a key right after `Map.delete` yields nothing. -/
theorem mapGet_mapDelete_self (m : List (String × GridEditor.GridLayoutCellSide))
    (k : String) :
    GridEditor.mapGet (GridEditor.mapDelete m k) k = none := by
  induction m with
  | nil => rfl
  | cons kv rest ih =>
    rcases kv with ⟨k1, v1⟩
    by_cases hk : k1 = k
    · simpa [GridEditor.mapDelete, List.filter_cons, hk] using ih
    · simpa [GridEditor.mapDelete, List.filter_cons, hk, GridEditor.mapGet] using ih

/-! Claim theorems. -/

/-- Claim C1, counterexample: after a failed bootstrap the error is caught
inside `loadPyodideAndPackages`, so `pyodideReadyPromise` is fulfilled, not
pending — awaiting it proceeds instead of hanging as the claim states. -/
theorem bootstrap_failure_does_not_hang_cex :
    (Worker.loadPyodideAndPackagesResult (Worker.BootstrapOutcome.fails "boom")).sent
        = [Worker.OutMsg.initializedError "boom"] ∧
      Worker.awaitPromise
          (Worker.loadPyodideAndPackagesResult
            (Worker.BootstrapOutcome.fails "boom")).promise
        ≠ Worker.AwaitResult.hangs := by
  exact ⟨rfl, by decide⟩

/-- Claim C1, amended: a bootstrap failure is reported exactly once via
`initializedError`, and — because the failure is caught — the bootstrap
promise is fulfilled, so every subsequent `loadPackages` and `startSession`
call proceeds past the bootstrap await (without any retry of the bootstrap)
rather than hanging. -/
theorem bootstrap_failure_reported_once_resolves (e : String) :
    (Worker.loadPyodideAndPackagesResult (Worker.BootstrapOutcome.fails e)).sent
        = [Worker.OutMsg.initializedError (Worker.prettyError e)] ∧
      (Worker.loadPyodideAndPackagesResult (Worker.BootstrapOutcome.fails e)).promise
        = Worker.PromiseState.fulfilled () ∧
      (∀ code, Worker.loadPackagesRun
          (Worker.loadPyodideAndPackagesResult (Worker.BootstrapOutcome.fails e)).promise
          code
        = Worker.AwaitResult.proceeds (Worker.loadPackagesTransform code)) ∧
      (∀ cl mountFn startFn code appId,
        (Worker.startSessionRun
            (Worker.loadPyodideAndPackagesResult (Worker.BootstrapOutcome.fails e)).promise
            cl mountFn startFn code appId).1
          = Worker.SessionOutcome.returned) := by
  refine ⟨rfl, rfl, fun code => rfl, ?_⟩
  intro cl mountFn startFn code appId
  rcases hm : mountFn code ("app-" ++ appId ++ ".py") with e1 | nb
  · cases cl <;>
      simp [Worker.startSessionRun, Worker.loadPyodideAndPackagesResult,
        Worker.awaitPromise, hm]
  · rcases hs : startFn nb with e2 | br <;> cases cl <;>
      simp [Worker.startSessionRun, Worker.loadPyodideAndPackagesResult,
        Worker.awaitPromise, hm, hs]

/-- Claim C2, counterexample: on input `"mo.sql"` the three injected imports
appear in the order sqlglot, duckdb, pandas — not pandas, duckdb, sqlglot as
the claim states — because each line is pushed onto the front after the
previous one. -/
theorem loadPackages_import_order_cex :
    Worker.loadPackagesTransform "mo.sql"
        = "import sqlglot\nimport duckdb\nimport pandas\nmo.sql" ∧
      Worker.loadPackagesTransform "mo.sql"
        ≠ "import pandas\nimport duckdb\nimport sqlglot\nmo.sql" := by
  exact ⟨by decide, by decide⟩

/-- Claim C2, amended: for every input containing `mo.sql` but not `polars`,
`loadPackages` prepends exactly three import lines, in the top-to-bottom order
sqlglot, duckdb, pandas, followed by the unchanged original code. -/
theorem loadPackages_sql_without_polars (code : String)
    (hsql : Worker.includes code "mo.sql" = true)
    (hpol : Worker.includes code "polars" = false) :
    Worker.loadPackagesTransform code
      = "import sqlglot\nimport duckdb\nimport pandas\n" ++ code := by
  unfold Worker.loadPackagesTransform
  rw [hsql]
  have hassoc : "import sqlglot\n" ++ ("import duckdb\n" ++ ("import pandas\n" ++ code))
      = "import sqlglot\nimport duckdb\nimport pandas\n" ++ code := by
    rw [← String.append_assoc, ← String.append_assoc]
    have hlit : ("import sqlglot\n" ++ "import duckdb\n" ++ "import pandas\n" : String)
        = "import sqlglot\nimport duckdb\nimport pandas\n" := by decide
    rw [hlit]
  simp only [if_true]
  rw [hassoc, polars_check_after_imports code hpol]
  simp

/-- Claim C2 witness: the amended statement evaluated at the concrete input
`"mo.sql"`. -/
theorem loadPackages_sql_without_polars_witness :
    Worker.loadPackagesTransform "mo.sql"
      = "import sqlglot\nimport duckdb\nimport pandas\n" ++ "mo.sql" :=
  loadPackages_sql_without_polars "mo.sql" (by decide) (by decide)

/-- Claim C5: for every input containing both `mo.sql` and `polars`, exactly
four import lines are prepended, with `pyarrow` first, ahead of the other
three injected imports and the original code. -/
theorem loadPackages_sql_with_polars (code : String)
    (hsql : Worker.includes code "mo.sql" = true)
    (hpol : Worker.includes code "polars" = true) :
    Worker.loadPackagesTransform code
      = "import pyarrow\nimport sqlglot\nimport duckdb\nimport pandas\n" ++ code := by
  unfold Worker.loadPackagesTransform
  rw [hsql]
  have hp3 : Worker.includes
      ("import sqlglot\n" ++ ("import duckdb\n" ++ ("import pandas\n" ++ code)))
      "polars" = true :=
    includes_append_left _ _ _
      (includes_append_left _ _ _ (includes_append_left _ _ _ hpol))
  simp only [if_true]
  rw [hp3]
  simp only [if_true]
  rw [← String.append_assoc, ← String.append_assoc, ← String.append_assoc]
  have hlit : ("import pyarrow\n" ++ "import sqlglot\n" ++ "import duckdb\n"
        ++ "import pandas\n" : String)
      = "import pyarrow\nimport sqlglot\nimport duckdb\nimport pandas\n" := by decide
  rw [hlit]

/-- Claim C5 witness: the statement evaluated at the concrete input
`"df = polars; mo.sql"`. -/
theorem loadPackages_sql_with_polars_witness :
    Worker.loadPackagesTransform "df = polars; mo.sql"
      = "import pyarrow\nimport sqlglot\nimport duckdb\nimport pandas\n"
          ++ "df = polars; mo.sql" :=
  loadPackages_sql_with_polars "df = polars; mo.sql" (by decide) (by decide)

/-- Claim C10: for every input not containing `mo.sql`, the code reaches the
package installer completely unchanged, even if it contains `polars`. -/
theorem loadPackages_no_sql_unchanged (code : String)
    (h : Worker.includes code "mo.sql" = false) :
    Worker.loadPackagesTransform code = code := by
  unfold Worker.loadPackagesTransform
  rw [h]
  simp

/-- Claim C10 witness: the statement evaluated at the concrete input
`"import polars"`, which contains the dataframe marker but not `mo.sql`. -/
theorem loadPackages_no_sql_unchanged_witness :
    Worker.includes "import polars" "polars" = true ∧
      Worker.loadPackagesTransform "import polars" = "import polars" :=
  ⟨by decide, loadPackages_no_sql_unchanged "import polars" (by decide)⟩

/-- Claim C3, counterexample: on the response string `"hello"`, which is not
parseable JSON, the `bridge` handler's unguarded `JSON.parse` throws, so the
call fails instead of returning the string verbatim. -/
theorem bridge_unparseable_response_cex :
    Worker.jsonParse "hello" = none ∧
      Worker.handleResponse (Worker.JsValue.str "hello")
          = Except.error Worker.jsonParseError ∧
      Worker.handleResponse (Worker.JsValue.str "hello")
          ≠ Except.ok (Worker.JsValue.str "hello") :=
  ⟨rfl, rfl, fun h => nomatch h⟩

/-- Claim C3, amended: an absent payload yields a no-argument call, a string
payload is passed through unserialized, any other payload is JSON-serialized;
a string response is always fed to `JSON.parse`, yielding the parsed value
when it is valid JSON and a thrown `SyntaxError` (propagated through the RPC
error channel) when it is not; a non-string response is returned as-is. -/
theorem bridge_serialization_spec (callNoArg : Worker.JsValue)
    (callWithArg : String → Worker.JsValue) (s : String) (v r : Worker.JsValue) :
    (Worker.bridgeCall none callNoArg callWithArg
        = Worker.handleResponse callNoArg) ∧
      (Worker.bridgeCall (some (Worker.JsValue.str s)) callNoArg callWithArg
        = Worker.handleResponse (callWithArg s)) ∧
      ((∀ t, v ≠ Worker.JsValue.str t) →
        Worker.bridgeCall (some v) callNoArg callWithArg
          = Worker.handleResponse (callWithArg (Worker.jsonStringify v))) ∧
      (∀ w, Worker.jsonParse s = some w →
        Worker.handleResponse (Worker.JsValue.str s) = Except.ok w) ∧
      (Worker.jsonParse s = none →
        Worker.handleResponse (Worker.JsValue.str s)
          = Except.error Worker.jsonParseError) ∧
      ((∀ t, r ≠ Worker.JsValue.str t) → Worker.handleResponse r = Except.ok r) := by
  refine ⟨rfl, rfl, ?_, ?_, ?_, ?_⟩
  · intro hv
    cases v with
    | str t => exact absurd rfl (hv t)
    | null => rfl
    | bool b => rfl
    | num n => rfl
    | arr xs => rfl
    | obj ms => rfl
  · intro w hw
    simp [Worker.handleResponse, hw]
  · intro hn
    simp [Worker.handleResponse, hn]
  · intro hr
    cases r with
    | str t => exact absurd rfl (hr t)
    | null => rfl
    | bool b => rfl
    | num n => rfl
    | arr xs => rfl
    | obj ms => rfl

/-- Claim C3 witness: the amended statement at concrete inputs — a parseable
string response `"true"`, and a non-string payload `true` serialized before
the call. -/
theorem bridge_serialization_spec_witness :
    Worker.handleResponse (Worker.JsValue.str "true")
        = Except.ok (Worker.JsValue.bool true) ∧
      Worker.bridgeCall (some (Worker.JsValue.bool true)) Worker.JsValue.null
          Worker.JsValue.str
        = Worker.handleResponse
            (Worker.JsValue.str (Worker.jsonStringify (Worker.JsValue.bool true))) :=
  ⟨(bridge_serialization_spec Worker.JsValue.null Worker.JsValue.str "true"
      Worker.JsValue.null Worker.JsValue.null).2.2.2.1
      (Worker.JsValue.bool true) rfl,
    (bridge_serialization_spec Worker.JsValue.null Worker.JsValue.str "x"
      (Worker.JsValue.bool true) Worker.JsValue.null).2.2.1
      (fun _ h => nomatch h)⟩

/-- Claim C4, counterexample: the drop handler appends the dropped item to the
library-supplied cell list unconditionally, so when that list already carries
the dropped id the produced cell list has a duplicate id — the handler itself
does not preserve the uniqueness invariant. -/
theorem onDrop_duplicate_id_cex :
    GridEditor.uniqueCellIds
        (⟨12, 20, none, false, [], [], []⟩ : GridEditor.GridLayout) ∧
      ¬ GridEditor.uniqueCellIds
        (GridEditor.onDrop (⟨12, 20, none, false, [], [], []⟩ : GridEditor.GridLayout)
          [⟨"a", 0, 0, 1, 1⟩] (some ⟨"a", 0, 0, 1, 1⟩)) := by
  exact ⟨by decide, by decide⟩

/-- Claim C4, amended: delete always preserves id-uniqueness of the cell
list; the layout-change and drop handlers produce an id-unique cell list
provided the library-supplied cell list has unique ids and, for drop, does
not already contain the dropped item's id — the handlers do not enforce this
against the callback input. -/
theorem grid_ops_preserve_unique_ids (layout : GridEditor.GridLayout)
    (cellLayouts : List GridEditor.GridCellLayout) (d : GridEditor.GridCellLayout)
    (cellId : String)
    (hlay : GridEditor.uniqueCellIds layout)
    (hcb : (cellLayouts.map GridEditor.GridCellLayout.i).Nodup)
    (hd : d.i ∉ cellLayouts.map GridEditor.GridCellLayout.i) :
    GridEditor.uniqueCellIds (GridEditor.onLayoutChange layout cellLayouts) ∧
      GridEditor.uniqueCellIds (GridEditor.onDrop layout cellLayouts (some d)) ∧
      GridEditor.uniqueCellIds (GridEditor.onDrop layout cellLayouts none) ∧
      GridEditor.uniqueCellIds (GridEditor.onDelete layout cellId) := by
  refine ⟨hcb, ?_, hlay, ?_⟩
  · simp only [GridEditor.onDrop, GridEditor.uniqueCellIds, List.map_append,
      List.map_cons, List.map_nil]
    rw [List.nodup_append]
    refine ⟨hcb, List.nodup_singleton _, ?_⟩
    intro a ha hmem
    rcases List.mem_singleton.mp hmem with rfl
    exact hd ha
  · simp only [GridEditor.onDelete, GridEditor.uniqueCellIds]
    exact hlay.sublist ((List.filter_sublist _).map _)

/-- Claim C4 witness: the amended statement at a concrete layout, callback
list and fresh dropped item. -/
theorem grid_ops_preserve_unique_ids_witness :
    GridEditor.uniqueCellIds
      (GridEditor.onDrop (⟨12, 20, none, false, [], [], []⟩ : GridEditor.GridLayout)
        [⟨"a", 0, 0, 1, 1⟩] (some ⟨"b", 0, 1, 1, 1⟩)) :=
  (grid_ops_preserve_unique_ids ⟨12, 20, none, false, [], [], []⟩
      [⟨"a", 0, 0, 1, 1⟩] ⟨"b", 0, 1, 1, 1⟩ "a"
      (by decide) (by decide) (by decide)).2.1

/-- Claim C6: once bootstrap has completed, the `startSession` handler always
returns normally to the RPC transport; a missing controller or a failure of
the filesystem mount or of the session start sends a single
`initializedError` carrying the prettified error, and on success the bridge
deferred is resolved and only then `initialized` is sent. -/
theorem startSession_error_handling (cl : Bool)
    (mountFn : String → String → Except String Worker.Notebook)
    (startFn : Worker.Notebook → Except String Worker.SerializedBridge)
    (code appId : String) :
    (Worker.startSessionRun (Worker.PromiseState.fulfilled ()) cl mountFn startFn
          code appId).1
        = Worker.SessionOutcome.returned ∧
      (cl = false →
        (Worker.startSessionRun (Worker.PromiseState.fulfilled ()) cl mountFn startFn
            code appId).2
          = [Worker.Action.sentMsg (Worker.OutMsg.initializedError
              (Worker.prettyError "Controller not loaded"))]) ∧
      (∀ e, cl = true → mountFn code ("app-" ++ appId ++ ".py") = Except.error e →
        (Worker.startSessionRun (Worker.PromiseState.fulfilled ()) cl mountFn startFn
            code appId).2
          = [Worker.Action.sentMsg (Worker.OutMsg.initializedError
              (Worker.prettyError e))]) ∧
      (∀ nb e, cl = true → mountFn code ("app-" ++ appId ++ ".py") = Except.ok nb →
        startFn nb = Except.error e →
        (Worker.startSessionRun (Worker.PromiseState.fulfilled ()) cl mountFn startFn
            code appId).2
          = [Worker.Action.sentMsg (Worker.OutMsg.initializedError
              (Worker.prettyError e))]) ∧
      (∀ nb br, cl = true → mountFn code ("app-" ++ appId ++ ".py") = Except.ok nb →
        startFn nb = Except.ok br →
        (Worker.startSessionRun (Worker.PromiseState.fulfilled ()) cl mountFn startFn
            code appId).2
          = [Worker.Action.resolvedBridge,
             Worker.Action.sentMsg Worker.OutMsg.initialized]) := by
  refine ⟨?_, ?_, ?_, ?_, ?_⟩
  · rcases hm : mountFn code ("app-" ++ appId ++ ".py") with e1 | nb
    · cases cl <;> simp [Worker.startSessionRun, Worker.awaitPromise, hm]
    · rcases hs : startFn nb with e2 | br <;> cases cl <;>
        simp [Worker.startSessionRun, Worker.awaitPromise, hm, hs]
  · rintro rfl
    simp [Worker.startSessionRun, Worker.awaitPromise]
  · rintro e rfl hm
    simp [Worker.startSessionRun, Worker.awaitPromise, hm]
  · rintro nb e rfl hm hs
    simp [Worker.startSessionRun, Worker.awaitPromise, hm, hs]
  · rintro nb br rfl hm hs
    simp [Worker.startSessionRun, Worker.awaitPromise, hm, hs]

/-- Claim C6 witness: the statement at concrete stage outcomes — a successful
mount and session start, and separately a failing mount. -/
theorem startSession_error_handling_witness :
    (Worker.startSessionRun (Worker.PromiseState.fulfilled ()) true
          (fun _ _ => Except.ok ⟨"nb"⟩) (fun _ => Except.ok ⟨"br"⟩) "c" "a").2
        = [Worker.Action.resolvedBridge,
           Worker.Action.sentMsg Worker.OutMsg.initialized] ∧
      (Worker.startSessionRun (Worker.PromiseState.fulfilled ()) true
          (fun _ _ => Except.error "mount failed") (fun _ => Except.ok ⟨"br"⟩)
          "c" "a").2
        = [Worker.Action.sentMsg (Worker.OutMsg.initializedError
            (Worker.prettyError "mount failed"))] :=
  ⟨(startSession_error_handling true (fun _ _ => Except.ok ⟨"nb"⟩)
      (fun _ => Except.ok ⟨"br"⟩) "c" "a").2.2.2.2 ⟨"nb"⟩ ⟨"br"⟩ rfl rfl rfl,
    (startSession_error_handling true (fun _ _ => Except.error "mount failed")
      (fun _ => Except.ok ⟨"br"⟩) "c" "a").2.2.1 "mount failed" rfl rfl⟩

/-- Claim C7: at drag start the dropping item's width is one quarter of the
column count and its height is the rendered pixel height divided by the row
height, rounded up with a minimum of 1 (the `|| 2` fallbacks on the grid prop
never fire under the data-model bounds `columns > 0`, `rowHeight > 0`); when
the drop completes, the dropped item is appended to the placed-cell list. -/
theorem tray_drop_initial_dimensions (layout : GridEditor.GridLayout)
    (cellId : String) (offsetHeight : ℚ)
    (hcols : 0 < layout.columns) (hrow : 0 < layout.rowHeight)
    (hh : 0 ≤ offsetHeight) :
    (GridEditor.droppingItemProp
          (GridEditor.onTrayDragStart layout cellId offsetHeight)).i = cellId ∧
      (GridEditor.droppingItemProp
          (GridEditor.onTrayDragStart layout cellId offsetHeight)).w
        = layout.columns / 4 ∧
      (GridEditor.droppingItemProp
          (GridEditor.onTrayDragStart layout cellId offsetHeight)).h
        = ((max 1 ⌈offsetHeight / layout.rowHeight⌉ : ℤ) : ℚ) ∧
      ∀ cls d, (GridEditor.onDrop layout cls (some d)).cells = cls ++ [d] := by
  have hceil : (0 : ℤ) ≤ ⌈offsetHeight / layout.rowHeight⌉ :=
    Int.ceil_nonneg (div_nonneg hh hrow.le)
  have hw : ¬ (layout.columns / 4 = 0) :=
    ne_of_gt (div_pos hcols (by norm_num))
  refine ⟨rfl, ?_, ?_, fun cls d => rfl⟩
  · simp [GridEditor.droppingItemProp, GridEditor.onTrayDragStart,
      GridEditor.jsFalsyOr, hw]
  · by_cases hz : ⌈offsetHeight / layout.rowHeight⌉ = 0
    · simp [GridEditor.droppingItemProp, GridEditor.onTrayDragStart,
        GridEditor.jsFalsyOr, hz]
    · have hq : ¬ (((⌈offsetHeight / layout.rowHeight⌉ : ℤ) : ℚ) = 0) := by
        exact_mod_cast hz
      have h1 : (1 : ℤ) ≤ ⌈offsetHeight / layout.rowHeight⌉ :=
        lt_of_le_of_ne hceil (Ne.symm hz)
      simp [GridEditor.droppingItemProp, GridEditor.onTrayDragStart,
        GridEditor.jsFalsyOr, hq, max_eq_right h1]

/-- Claim C7 witness: the statement at a 12-column, 20px-row layout and a tray
cell rendered 50px tall: the dropping width is 3 columns and the height is
⌈50/20⌉ = 3 rows. -/
theorem tray_drop_initial_dimensions_witness :
    (GridEditor.droppingItemProp
        (GridEditor.onTrayDragStart
          (⟨12, 20, none, false, [], [], []⟩ : GridEditor.GridLayout) "c" 50)).w
      = 12 / 4 ∧
    (GridEditor.droppingItemProp
        (GridEditor.onTrayDragStart
          (⟨12, 20, none, false, [], [], []⟩ : GridEditor.GridLayout) "c" 50)).h
      = ((max 1 ⌈(50 : ℚ) / 20⌉ : ℤ) : ℚ) :=
  ⟨(tray_drop_initial_dimensions ⟨12, 20, none, false, [], [], []⟩ "c" 50
      (by norm_num) (by norm_num) (by norm_num)).2.1,
    (tray_drop_initial_dimensions ⟨12, 20, none, false, [], [], []⟩ "c" 50
      (by norm_num) (by norm_num) (by norm_num)).2.2.1⟩

/-- Claim C8: setting the docking side to the currently stored value deletes
the entry, setting any other value stores it, and hence setting the same side
twice starting from an unset entry leaves the entry cleared. -/
theorem setSide_idempotent_toggle (layout : GridEditor.GridLayout)
    (cellId : String) (side : GridEditor.GridLayoutCellSide) :
    (GridEditor.mapGet layout.cellSide cellId = some side →
        GridEditor.mapGet (GridEditor.handleSetSide layout cellId side).cellSide
          cellId = none) ∧
      (GridEditor.mapGet layout.cellSide cellId ≠ some side →
        GridEditor.mapGet (GridEditor.handleSetSide layout cellId side).cellSide
          cellId = some side) ∧
      (GridEditor.mapGet layout.cellSide cellId = none →
        GridEditor.mapGet
          (GridEditor.handleSetSide (GridEditor.handleSetSide layout cellId side)
            cellId side).cellSide cellId = none) := by
  refine ⟨?_, ?_, ?_⟩
  · intro h
    simp [GridEditor.handleSetSide, h, mapGet_mapDelete_self]
  · intro h
    simp [GridEditor.handleSetSide, h, mapGet_mapSet_self]
  · intro h
    have h1 : GridEditor.mapGet layout.cellSide cellId ≠ some side := by
      simp [h]
    simp [GridEditor.handleSetSide, h1, mapGet_mapSet_self, mapGet_mapDelete_self]

/-- Claim C8 witness: from an unset entry in the empty side map, setting
`left` twice leaves the entry cleared. -/
theorem setSide_idempotent_toggle_witness :
    GridEditor.mapGet
      (GridEditor.handleSetSide
        (GridEditor.handleSetSide
          (⟨12, 20, none, false, [], [], []⟩ : GridEditor.GridLayout) "c"
          GridEditor.GridLayoutCellSide.left)
        "c" GridEditor.GridLayoutCellSide.left).cellSide "c" = none :=
  (setSide_idempotent_toggle ⟨12, 20, none, false, [], [], []⟩ "c"
    GridEditor.GridLayoutCellSide.left).2.2 rfl

/-- Claim C9: deleting a cell id yields a document whose cell list has no
entry with that id; the id subsequently appears in the derived tray list
(provided the notebook has a cell with that id, which is the only way the
delete control is rendered), and every other document field is unchanged. -/
theorem delete_removes_cell_to_tray (layout : GridEditor.GridLayout)
    (cellId : String) (cs : List GridEditor.NotebookCell)
    (h : cellId ∈ cs.map GridEditor.NotebookCell.id) :
    (∀ c ∈ (GridEditor.onDelete layout cellId).cells, c.i ≠ cellId) ∧
      cellId ∈ (GridEditor.notInGrid (GridEditor.onDelete layout cellId) cs).map
          GridEditor.NotebookCell.id ∧
      (GridEditor.onDelete layout cellId).columns = layout.columns ∧
      (GridEditor.onDelete layout cellId).rowHeight = layout.rowHeight ∧
      (GridEditor.onDelete layout cellId).maxWidth = layout.maxWidth ∧
      (GridEditor.onDelete layout cellId).bordered = layout.bordered ∧
      (GridEditor.onDelete layout cellId).scrollableCells = layout.scrollableCells ∧
      (GridEditor.onDelete layout cellId).cellSide = layout.cellSide := by
  refine ⟨?_, ?_, rfl, rfl, rfl, rfl, rfl, rfl⟩
  · intro c hc
    simp only [GridEditor.onDelete] at hc
    have h2 := (List.mem_filter.mp hc).2
    simpa using h2
  · rcases List.mem_map.mp h with ⟨c, hcs, hid⟩
    refine List.mem_map.mpr ⟨c, ?_, hid⟩
    simp only [GridEditor.notInGrid, GridEditor.inGridIds, GridEditor.onDelete]
    refine List.mem_filter.mpr ⟨hcs, ?_⟩
    have hnot : cellId ∉ List.map (fun c => c.i)
        (List.filter (fun c => c.i != cellId) layout.cells) := by
      intro hmem
      rcases List.mem_map.mp hmem with ⟨x, hxf, hxi⟩
      have hxne := (List.mem_filter.mp hxf).2
      rw [hxi] at hxne
      simp at hxne
    simp [hid, hnot]

/-- Claim C9 witness: deleting `"a"` from a document placing it moves it into
the derived tray list. -/
theorem delete_removes_cell_to_tray_witness :
    "a" ∈ (GridEditor.notInGrid
        (GridEditor.onDelete
          (⟨12, 20, none, false, [⟨"a", 0, 0, 1, 1⟩], [], []⟩ : GridEditor.GridLayout)
          "a")
        [⟨"a"⟩, ⟨"b"⟩]).map GridEditor.NotebookCell.id :=
  (delete_removes_cell_to_tray ⟨12, 20, none, false, [⟨"a", 0, 0, 1, 1⟩], [], []⟩
    "a" [⟨"a"⟩, ⟨"b"⟩] (by decide)).2.1
